import Mathlib

/-
  Shallow embedding of the hierarchical tenant access-control engine of the
  cre-studio-backend repository: role lattice, scope resolver, permission
  decider, invitation lifecycle and SSO claim builder.

  Sources embedded (with the Python file and line ranges they mirror):
  - property_app/models.py: PropertyUserRole, UserPropertyMembership, Property,
    PropertyGroup (fields relevant to access control).
  - authentication/models.py 112-148: CustomUser.get_managed_users.
  - authentication/permissions.py 16-29: CanManageUsers.has_permission;
    31-76: CanManageUsers.has_object_permission;
    89-125: CanCreateUserWithRole.can_create_role.
  - authentication/serializers.py 102-157: UserManagementCreateSerializer.validate
    (role and scope portion); 260-314: UserManagementUpdateSerializer.validate
    (role and scope portion).
  - authentication/views.py 464-517: AcceptInvitationView.get;
    203-233: UserManagementViewSet.activate.
  - authentication/tokens.py 99-132 and views.py 716-741: the primary-role
    resolver used by the SSO claim builder and the introspection endpoint
    (the two method bodies are textually identical).

  Machine integers are modelled as Nat (Django primary keys) and Int
  (timestamps, in seconds).  Fallible code returns Except or a result
  inductive mirroring the distinct HTTP error responses.
-/

namespace CreStudio

/-- The three membership roles of PropertyUserRole (property_app/models.py 51-54). -/
inductive Role
  | tenant
  | property_admin
  | group_admin
deriving DecidableEq, Repr

/-- The role choices offered by the management serializers:
PropertyUserRole.choices plus the extra super_user choice
(authentication/serializers.py 73-76). -/
inductive RoleChoice
  | super_user
  | tenant
  | property_admin
  | group_admin
deriving DecidableEq, Repr

/-- One UserPropertyMembership row (property_app/models.py 56-94): a role and
optional foreign keys to a Property and a PropertyGroup (both nullable at the
database level; clean() enforces the XOR but rows are read back as stored). -/
structure Membership where
  role : Role
  property : Option Nat
  property_group : Option Nat
deriving DecidableEq, Repr

/-- One Property row (property_app/models.py 21-49): id and its required
property_group foreign key (the ForeignKey has no null=True). -/
structure Property where
  id : Nat
  property_group : Nat
deriving DecidableEq, Repr

/-- One CustomUser row (authentication/models.py 36-57) together with its
property_memberships relation.  Timestamps are seconds as Int. -/
structure User where
  id : Nat
  email : String
  first_name : Option String
  last_name : Option String
  is_superuser : Bool
  is_staff : Bool
  is_active : Bool
  invitation_sent : Bool
  invitation_accepted : Bool
  invitation_token : Option String
  invitation_sent_at : Option Int
  invitation_accepted_at : Option Int
  memberships : List Membership
deriving DecidableEq, Repr

/-- The database state the access-control engine reads: the CustomUser table
(with memberships), the Property table, and the PropertyGroup table (ids). -/
structure DB where
  users : List User
  properties : List Property
  property_groups : List Nat
deriving DecidableEq, Repr

/-- Python truthiness of an Optional[int]: None and 0 are falsy.  Django
primary keys start at 1, so in practice only None is falsy, but the code
tests like if property_id: use truthiness. -/
def truthyOptNat : Option Nat → Bool
  | some n => n != 0
  | none => false

/-- Property.objects.get(id=pid) as a lookup in the Property table. -/
def DB.findProperty (db : DB) (pid : Nat) : Option Property :=
  db.properties.find? (fun p => p.id == pid)

/-- The ids of the properties of a group: membership.property_group.properties
(the reverse foreign-key relation, property_app/models.py 26-29). -/
def propertiesInGroup (db : DB) (g : Nat) : List Nat :=
  (db.properties.filter (fun p => p.property_group == g)).map (fun p => p.id)

/-- Roles a group admin may manage: role__in=[PROPERTY_ADMIN, TENANT]
(authentication/models.py 128 and 134, permissions.py 62 and 65). -/
def isManagedRole (r : Role) : Bool :=
  r == Role.property_admin || r == Role.tenant

/-- Whether one membership of the actor makes target user t manageable,
mirroring one iteration of the loop of CustomUser.get_managed_users
(authentication/models.py 120-146).  A group_admin membership with a group
contributes users holding a property_admin or tenant membership on a property
of the group, or directly on the group; a property_admin membership with a
property contributes users holding a tenant membership on that property;
tenant memberships contribute nothing. -/
def grantsManage (db : DB) (m : Membership) (t : User) : Bool :=
  if m.role == Role.group_admin then
    match m.property_group with
    | some g =>
      t.memberships.any (fun tm =>
        (match tm.property with
         | some pid => (propertiesInGroup db g).contains pid
         | none => false) && isManagedRole tm.role)
      || t.memberships.any (fun tm =>
        tm.property_group == some g && isManagedRole tm.role)
    | none => false
  else if m.role == Role.property_admin then
    match m.property with
    | some pid =>
      t.memberships.any (fun tm =>
        tm.property == some pid && tm.role == Role.tenant)
    | none => false
  else false

/-- CustomUser.get_managed_users (authentication/models.py 112-148): superusers
get every user; otherwise the union over the memberships of the actor of the
users granted by grantsManage.  UserManagementViewSet.get_queryset
(authentication/views.py 126-175) computes the same set.  Neither excludes
the actor from the result. -/
def get_managed_users (db : DB) (u : User) : List User :=
  if u.is_superuser then db.users
  else db.users.filter (fun t => u.memberships.any (fun m => grantsManage db m t))

/-- CanManageUsers.has_permission (authentication/permissions.py 16-29) for an
authenticated requester: superuser, or at least one membership with an admin
role. -/
def has_permission (actor : User) : Bool :=
  actor.is_superuser ||
    actor.memberships.any (fun m =>
      m.role == Role.property_admin || m.role == Role.group_admin)

/-- CanManageUsers.has_object_permission (authentication/permissions.py 31-76)
for an authenticated requester.  Order of the checks: superuser actor, self
(Django model equality is primary-key equality), superuser target, then the
membership loops.  Inside the group_admin loop the Python if/elif means: when
the target membership has a property whose group equals the requester group,
only the role test of that branch applies; the direct-group elif branch is
reached only when that first condition is false. -/
def has_object_permission (db : DB) (actor target : User) : Bool :=
  if actor.is_superuser then true
  else if actor.id == target.id then false
  else if target.is_superuser then actor.is_superuser
  else actor.memberships.any (fun rm =>
    if rm.role == Role.group_admin then
      match rm.property_group with
      | some g =>
        target.memberships.any (fun tm =>
          if (match tm.property with
              | some pid => (db.findProperty pid).elim false (fun p => p.property_group == g)
              | none => false) then
            isManagedRole tm.role
          else
            tm.property_group == some g && isManagedRole tm.role)
      | none => false
    else if rm.role == Role.property_admin then
      match rm.property with
      | some pid =>
        target.memberships.any (fun tm =>
          tm.property == some pid && tm.role == Role.tenant)
      | none => false
    else false)

/-- CanCreateUserWithRole.can_create_role (authentication/permissions.py
89-125): superusers may create any role; a group_admin membership with a group
allows property_admin or tenant when the supplied group id equals the
membership group id, or the supplied property id (when truthy) resolves to a
property of the membership group; a property_admin membership with a property
allows tenant on exactly that property id. -/
def can_create_role (db : DB) (requester : User) (target_role : RoleChoice)
    (property_id property_group_id : Option Nat) : Bool :=
  if requester.is_superuser then true
  else requester.memberships.any (fun m =>
    if m.role == Role.group_admin then
      match m.property_group with
      | some g =>
        (target_role == RoleChoice.property_admin || target_role == RoleChoice.tenant) &&
        (property_group_id == some g ||
          (truthyOptNat property_id &&
            (match property_id with
             | some pid => (db.findProperty pid).elim false (fun p => p.property_group == g)
             | none => false)))
      | none => false
    else if m.role == Role.property_admin then
      match m.property with
      | some pid => target_role == RoleChoice.tenant && property_id == some pid
      | none => false
    else false)

/-- Error classes of the Python exceptions the request layer distinguishes:
rest_framework serializers.ValidationError is returned as HTTP 400, DRF
PermissionDenied as HTTP 403.  The spec treats these as the two distinct
error families (validation vs authorization). -/
inductive ErrClass
  | validationError
  | permissionDenied
deriving DecidableEq, Repr

/-- The raise sites of the role and scope portion of
UserManagementCreateSerializer.validate (authentication/serializers.py
102-157) and of the identical block of UserManagementUpdateSerializer.validate
(260-314), one constructor per raise statement. -/
inductive CreateErr
  | permissionForRole (role : RoleChoice)
  | superUserScoped
  | groupAdminNeedsGroup
  | groupAdminWithProperty
  | roleNeedsProperty (role : RoleChoice)
  | roleWithGroup (role : RoleChoice)
  | invalidPropertyId
  | invalidGroupId
deriving DecidableEq, Repr

/-- The Python exception class raised at each site: every raise in both
validate methods constructs serializers.ValidationError, including the
permission denial of serializers.py 115-117 and 274-276. -/
def CreateErr.pythonClass : CreateErr → ErrClass :=
  fun _ => ErrClass.validationError

/-- The role-specific structural validation (serializers.py 119-142, and
identically 279-301): super_user forbids any truthy property or group id;
group_admin requires a truthy group id and forbids a truthy property id;
property_admin and tenant require a truthy property id and forbid a truthy
group id. -/
def roleScopeCheck (role : RoleChoice) (property_id property_group_id : Option Nat) :
    Except CreateErr Unit :=
  match role with
  | RoleChoice.super_user =>
    if truthyOptNat property_id || truthyOptNat property_group_id then
      Except.error CreateErr.superUserScoped
    else Except.ok ()
  | RoleChoice.group_admin =>
    if !truthyOptNat property_group_id then Except.error CreateErr.groupAdminNeedsGroup
    else if truthyOptNat property_id then Except.error CreateErr.groupAdminWithProperty
    else Except.ok ()
  | RoleChoice.property_admin =>
    if !truthyOptNat property_id then Except.error (CreateErr.roleNeedsProperty role)
    else if truthyOptNat property_group_id then Except.error (CreateErr.roleWithGroup role)
    else Except.ok ()
  | RoleChoice.tenant =>
    if !truthyOptNat property_id then Except.error (CreateErr.roleNeedsProperty role)
    else if truthyOptNat property_group_id then Except.error (CreateErr.roleWithGroup role)
    else Except.ok ()

/-- A truthy property id that does not resolve in the Property table
(serializers.py 145-149: if property_id, Property.objects.get raises
DoesNotExist). -/
def missingProperty (db : DB) (property_id : Option Nat) : Bool :=
  match property_id with
  | some n => n != 0 && (db.findProperty n).isNone
  | none => false

/-- A truthy group id that does not resolve in the PropertyGroup table
(serializers.py 151-155). -/
def missingGroup (db : DB) (property_group_id : Option Nat) : Bool :=
  match property_group_id with
  | some n => n != 0 && !(db.property_groups.contains n)
  | none => false

/-- The existence checks at the end of both validate methods
(serializers.py 144-155 and 303-314). -/
def scopeExistsCheck (db : DB) (property_id property_group_id : Option Nat) :
    Except CreateErr Unit :=
  if missingProperty db property_id then Except.error CreateErr.invalidPropertyId
  else if missingGroup db property_group_id then Except.error CreateErr.invalidGroupId
  else Except.ok ()

/-- The role and scope portion of UserManagementCreateSerializer.validate
(serializers.py 102-157): first the can_create_role permission gate, whose
failure raises serializers.ValidationError (lines 107-117), then the
structural role checks, then the existence checks.  Password checks (91-100)
precede this block and can only add further ValidationErrors; they are not
modelled. -/
def validateUserCreate (db : DB) (actor : User) (role : RoleChoice)
    (property_id property_group_id : Option Nat) : Except CreateErr Unit :=
  if !can_create_role db actor role property_id property_group_id then
    Except.error (CreateErr.permissionForRole role)
  else
    match roleScopeCheck role property_id property_group_id with
    | Except.error e => Except.error e
    | Except.ok () => scopeExistsCheck db property_id property_group_id

/-- The role and scope portion of UserManagementUpdateSerializer.validate
(serializers.py 260-314): the role block only runs when a role was supplied;
the existence checks always run. -/
def validateUserUpdate (db : DB) (actor : User) (role : Option RoleChoice)
    (property_id property_group_id : Option Nat) : Except CreateErr Unit :=
  match role with
  | some r =>
    if !can_create_role db actor r property_id property_group_id then
      Except.error (CreateErr.permissionForRole r)
    else
      match roleScopeCheck r property_id property_group_id with
      | Except.error e => Except.error e
      | Except.ok () => scopeExistsCheck db property_id property_group_id
  | none => scopeExistsCheck db property_id property_group_id

/-- The outcome of GET accept-invitation (views.py 464-517): success carries
the saved user row; the three 400 errors are distinct; serverError is the
generic except-branch (only reachable here when several rows share the
token, making CustomUser.objects.get raise MultipleObjectsReturned). -/
inductive AcceptResult
  | success (u : User)
  | invalidToken
  | expired
  | alreadyAccepted
  | serverError
deriving DecidableEq, Repr

/-- timedelta(days=7) in seconds (views.py 477). -/
def sevenDays : Int := 7 * 86400

/-- The expiry test of views.py 474-478: only when invitation_sent_at is set
(datetime truthiness: None is falsy), and strict comparison
timezone.now() > invitation_sent_at + 7 days. -/
def inviteExpired (u : User) (now : Int) : Bool :=
  match u.invitation_sent_at with
  | some sentAt => decide (sentAt + sevenDays < now)
  | none => false

/-- The successful write of views.py 492-494: exactly the three fields
invitation_accepted, invitation_accepted_at and is_active are assigned before
save; every other field, the token included, keeps its stored value. -/
def applyAccept (u : User) (now : Int) : User :=
  { u with
    invitation_accepted := true
    invitation_accepted_at := some now
    is_active := true }

/-- AcceptInvitationView.get (views.py 464-517).  Checks in source order:
CustomUser.objects.get(invitation_token=token) (no row: invalid token;
several rows: the generic exception branch), then the expiry check of lines
474-482, then the already-accepted check of lines 485-489, then the
activation write and save.  save() persists the single fetched row, keyed by
primary key. -/
def acceptInvitation (db : DB) (token : String) (now : Int) : AcceptResult × DB :=
  match db.users.filter (fun u => u.invitation_token == some token) with
  | [] => (AcceptResult.invalidToken, db)
  | [u] =>
    if inviteExpired u now then (AcceptResult.expired, db)
    else if u.invitation_accepted then (AcceptResult.alreadyAccepted, db)
    else
      (AcceptResult.success (applyAccept u now),
       { db with users := db.users.map (fun v => if v.id == u.id then applyAccept u now else v) })
  | _ :: _ :: _ => (AcceptResult.serverError, db)

/-- The outcome of the activate action (views.py 203-233): activated carries
the saved user row; the two 400 errors leave the row untouched (no save on
those paths). -/
inductive ActivateResult
  | activated (u : User)
  | mustAcceptInvitation
  | alreadyActive
deriving DecidableEq, Repr

/-- UserManagementViewSet.activate (views.py 203-233): an inactive target
whose invitation is unaccepted is rejected for non-superuser requesters; a
superuser requester additionally sets invitation_accepted before the
is_active assignment; an inactive accepted target just gets is_active; an
active target yields the already-active error. -/
def activateUser (requester target : User) : ActivateResult :=
  if !target.is_active then
    if !target.invitation_accepted then
      if !requester.is_superuser then ActivateResult.mustAcceptInvitation
      else ActivateResult.activated
        { target with invitation_accepted := true, is_active := true }
    else ActivateResult.activated { target with is_active := true }
  else ActivateResult.alreadyActive

/-- The numeric rank of each membership role (tokens.py 117-121 and the
identical table of views.py 726-730). -/
def rolePriority : Role → Nat
  | Role.group_admin => 3
  | Role.property_admin => 2
  | Role.tenant => 1

/-- The primary role rendered into SSO claims: the super_user marker or a
membership role. -/
inductive PrimaryRole
  | super_user
  | membership_role (r : Role)
deriving DecidableEq, Repr

/-- One step of the highest-priority scan of tokens.py 123-130 / views.py
732-739: the running pair (highest_role, highest_priority) starts at
(None, 0) and is replaced only on a strictly greater priority. -/
def rolePick (acc : Option Role × Nat) (m : Membership) : Option Role × Nat :=
  if rolePriority m.role > acc.2 then (some m.role, rolePriority m.role) else acc

/-- CampaignPlannerTokenObtainPairSerializer._get_user_role (tokens.py
99-132) and TokenIntrospectionView._get_user_role (views.py 716-741), whose
bodies are identical: superuser short-circuits to super_user; no memberships
gives None; otherwise the single scan keeping the membership with the
highest numeric priority. -/
def get_user_role (u : User) : Option PrimaryRole :=
  if u.is_superuser then some PrimaryRole.super_user
  else if u.memberships.isEmpty then none
  else (u.memberships.foldl rolePick (none, 0)).1.map PrimaryRole.membership_role

/-!  Concrete database instances used by the counterexamples and witnesses. -/

/-- A compact CustomUser row builder for the concrete instances below:
defaults match a freshly created non-superuser row (authentication/models.py
9-25: is_active false until invitation acceptance). -/
def mkUser (uid : Nat) (su : Bool) (ms : List Membership) : User :=
  { id := uid, email := "", first_name := none, last_name := none,
    is_superuser := su, is_staff := false, is_active := false,
    invitation_sent := false, invitation_accepted := false,
    invitation_token := none, invitation_sent_at := none,
    invitation_accepted_at := none, memberships := ms }

/-- A non-superuser holding a group_admin membership on group 1 and a tenant
membership on property 1, where property 1 lies in group 1: the user whose
own memberships fall inside the scope the user manages. -/
def selfScopedAdmin : User :=
  mkUser 1 false [⟨Role.group_admin, none, some 1⟩, ⟨Role.tenant, some 1, none⟩]

/-- The database containing selfScopedAdmin, property 1 in group 1. -/
def selfScopedDB : DB :=
  { users := [selfScopedAdmin], properties := [⟨1, 1⟩], property_groups := [1] }

/-- A user whose invitation token is both already accepted and sent more than
seven days before the redemption attempt. -/
def staleAcceptedUser : User :=
  { mkUser 1 false [] with
    is_active := true, invitation_sent := true, invitation_accepted := true,
    invitation_token := some "t", invitation_sent_at := some 0 }

/-- The database containing only staleAcceptedUser. -/
def staleAcceptedDB : DB :=
  { users := [staleAcceptedUser], properties := [], property_groups := [] }

/-- A user with a pending (sent, unaccepted, unexpired-at-time-5) invitation. -/
def pendingInvitee : User :=
  { mkUser 2 false [] with
    invitation_sent := true, invitation_token := some "t",
    invitation_sent_at := some 0 }

/-- The database containing only pendingInvitee. -/
def pendingDB : DB :=
  { users := [pendingInvitee], properties := [], property_groups := [] }

/-- A user with a stored invitation token but a null invitation_sent_at. -/
def noTimestampInvitee : User :=
  { mkUser 3 false [] with
    invitation_sent := true, invitation_token := some "t" }

/-- The database containing only noTimestampInvitee. -/
def noTimestampDB : DB :=
  { users := [noTimestampInvitee], properties := [], property_groups := [] }

/-- An actor whose only membership is group_admin on group 1. -/
def groupAdmin1 : User := mkUser 10 false [⟨Role.group_admin, none, some 1⟩]

/-- A target whose only membership is property_admin on property 1. -/
def propertyAdmin1 : User := mkUser 11 false [⟨Role.property_admin, some 1, none⟩]

/-- A superuser with no memberships. -/
def superuser1 : User := mkUser 12 true []

/-- A database where property 1 belongs to group 1. -/
def dbInG : DB := { users := [], properties := [⟨1, 1⟩], property_groups := [1, 2] }

/-- The same database after property 1 is moved to group 2. -/
def dbOutG : DB := { users := [], properties := [⟨1, 2⟩], property_groups := [1, 2] }

/-!  Theorems. -/

/-- Claim C4: for every authenticated actor that is not a superuser and every
superuser target, CanManageUsers.has_object_permission is false regardless of
the actor memberships and of the database contents. -/
theorem c4_superuser_only_managed_by_superuser (db : DB) (actor target : User)
    (ha : actor.is_superuser = false) (ht : target.is_superuser = true) :
    has_object_permission db actor target = false := by
  unfold has_object_permission
  simp [ha, ht]

/-- Witness for C4 at a concrete input: a group admin cannot manage a
superuser. -/
theorem c4_witness :
    has_object_permission dbInG groupAdmin1 superuser1 = false :=
  c4_superuser_only_managed_by_superuser dbInG groupAdmin1 superuser1 rfl rfl

/-- Claim C2, evidence of the code bug: selfScopedAdmin is a non-superuser
whose get_managed_users result contains selfScopedAdmin itself (the tenant
membership on property 1 falls inside the group the user administers), while
CanManageUsers.has_object_permission denies self-management of the very same
pair, so the scope resolver contradicts the permission decider and the
self-exclusion invariant of the spec. -/
theorem c2_self_in_get_managed_users :
    selfScopedAdmin.is_superuser = false ∧
    selfScopedAdmin ∈ get_managed_users selfScopedDB selfScopedAdmin ∧
    has_object_permission selfScopedDB selfScopedAdmin selfScopedAdmin = false := by
  refine ⟨rfl, ?_, by decide⟩
  decide

/-- Claim C1, counterexample: staleAcceptedUser has an invitation that is both
already accepted and sent more than seven days before the attempt (sent at 0,
attempt at 604801 > 7 days), yet redemption returns the expired error, not
the already-accepted error, because AcceptInvitationView.get tests expiry
before acceptance. -/
theorem c1_counterexample :
    staleAcceptedUser.invitation_accepted = true ∧
    inviteExpired staleAcceptedUser 604801 = true ∧
    (acceptInvitation staleAcceptedDB "t" 604801).1 = AcceptResult.expired ∧
    AcceptResult.expired ≠ AcceptResult.alreadyAccepted := by
  refine ⟨rfl, by decide, by decide, by decide⟩

/-- Claim C1 as amended: redemption checks its preconditions in the order
(a) a user with the exact invitation_token must exist (unknown token gives
the invalid-token error with no state change), then (b) if invitation_sent_at
is set and now minus invitation_sent_at exceeds 7 days, the expired error
with no state change (this branch fires even when the invitation is already
accepted), then (c) invitation_accepted already true gives the
already-accepted error with no state change; otherwise the redemption
succeeds and activates the account. -/
theorem c1_redemption_check_order (db : DB) (token : String) (now : Int) :
    (db.users.filter (fun v => v.invitation_token == some token) = [] →
       acceptInvitation db token now = (AcceptResult.invalidToken, db)) ∧
    (∀ u, db.users.filter (fun v => v.invitation_token == some token) = [u] →
       (inviteExpired u now = true →
          acceptInvitation db token now = (AcceptResult.expired, db)) ∧
       (inviteExpired u now = false → u.invitation_accepted = true →
          acceptInvitation db token now = (AcceptResult.alreadyAccepted, db)) ∧
       (inviteExpired u now = false → u.invitation_accepted = false →
          (acceptInvitation db token now).1 = AcceptResult.success (applyAccept u now))) := by
  constructor
  · intro h
    unfold acceptInvitation
    rw [h]
  · intro u h
    refine ⟨?_, ?_, ?_⟩
    · intro h1
      unfold acceptInvitation
      rw [h]
      simp [h1]
    · intro h1 h2
      unfold acceptInvitation
      rw [h]
      simp [h1, h2]
    · intro h1 h2
      unfold acceptInvitation
      rw [h]
      simp [h1, h2]

/-- Witness for C1 as amended, at the concrete stale-and-accepted input: the
expiry branch fires. -/
theorem c1_witness :
    acceptInvitation staleAcceptedDB "t" 604801 = (AcceptResult.expired, staleAcceptedDB) :=
  ((c1_redemption_check_order staleAcceptedDB "t" 604801).2 staleAcceptedUser
    (by decide)).1 (by decide)

/-- Claim C7: on every successful invitation redemption, exactly the fields
invitation_accepted (true), invitation_accepted_at (now) and is_active (true)
are written to the matched user; the invitation_token and every other field
keep their stored values, and the other tables and user rows are unchanged. -/
theorem c7_success_writes_exactly_three_fields (db db' : DB) (token : String)
    (now : Int) (u' : User)
    (h : acceptInvitation db token now = (AcceptResult.success u', db')) :
    ∃ u, db.users.filter (fun v => v.invitation_token == some token) = [u] ∧
      u.invitation_accepted = false ∧
      u' = applyAccept u now ∧
      u'.invitation_accepted = true ∧
      u'.invitation_accepted_at = some now ∧
      u'.is_active = true ∧
      u'.invitation_token = u.invitation_token ∧
      u'.id = u.id ∧
      u'.email = u.email ∧
      u'.first_name = u.first_name ∧
      u'.last_name = u.last_name ∧
      u'.is_superuser = u.is_superuser ∧
      u'.is_staff = u.is_staff ∧
      u'.invitation_sent = u.invitation_sent ∧
      u'.invitation_sent_at = u.invitation_sent_at ∧
      u'.memberships = u.memberships ∧
      db'.properties = db.properties ∧
      db'.property_groups = db.property_groups ∧
      db'.users = db.users.map (fun v => if v.id == u.id then applyAccept u now else v) := by
  unfold acceptInvitation at h
  cases hf : db.users.filter (fun v => v.invitation_token == some token) with
  | nil =>
    rw [hf] at h
    simp at h
  | cons u rest =>
    cases rest with
    | cons w rest2 =>
      rw [hf] at h
      simp at h
    | nil =>
      rw [hf] at h
      by_cases he : inviteExpired u now
      · simp [he] at h
      · by_cases ha : u.invitation_accepted = true
        · simp [he, ha] at h
        · simp [he, ha] at h
          obtain ⟨h1, h2⟩ := h
          subst h1
          subst h2
          refine ⟨u, rfl, by simpa using ha, rfl, rfl, rfl, rfl, rfl, rfl, rfl,
            rfl, rfl, rfl, rfl, rfl, rfl, rfl, rfl, ?_⟩
          simp

/-- Witness for C7 at a concrete input: redeeming the pending invitation at
time 5 succeeds and rewrites exactly the three fields. -/
theorem c7_witness :
    ∃ u, pendingDB.users.filter (fun v => v.invitation_token == some "t") = [u] ∧
      u.invitation_accepted = false ∧
      applyAccept pendingInvitee 5 = applyAccept u 5 ∧
      (applyAccept pendingInvitee 5).invitation_accepted = true ∧
      (applyAccept pendingInvitee 5).invitation_accepted_at = some 5 ∧
      (applyAccept pendingInvitee 5).is_active = true ∧
      (applyAccept pendingInvitee 5).invitation_token = u.invitation_token ∧
      (applyAccept pendingInvitee 5).id = u.id ∧
      (applyAccept pendingInvitee 5).email = u.email ∧
      (applyAccept pendingInvitee 5).first_name = u.first_name ∧
      (applyAccept pendingInvitee 5).last_name = u.last_name ∧
      (applyAccept pendingInvitee 5).is_superuser = u.is_superuser ∧
      (applyAccept pendingInvitee 5).is_staff = u.is_staff ∧
      (applyAccept pendingInvitee 5).invitation_sent = u.invitation_sent ∧
      (applyAccept pendingInvitee 5).invitation_sent_at = u.invitation_sent_at ∧
      (applyAccept pendingInvitee 5).memberships = u.memberships ∧
      ({ pendingDB with users := [applyAccept pendingInvitee 5] } : DB).properties = pendingDB.properties ∧
      ({ pendingDB with users := [applyAccept pendingInvitee 5] } : DB).property_groups = pendingDB.property_groups ∧
      ({ pendingDB with users := [applyAccept pendingInvitee 5] } : DB).users =
        pendingDB.users.map (fun v => if v.id == u.id then applyAccept u 5 else v) :=
  c7_success_writes_exactly_three_fields pendingDB
    { pendingDB with users := [applyAccept pendingInvitee 5] } "t" 5
    (applyAccept pendingInvitee 5) (by decide)

/-- Claim C10: when the matched user has a null invitation_sent_at, the 7-day
expiry precondition is skipped entirely (the guard if user.invitation_sent_at
is false), so the attempt never yields the expired error at any time, and
when invitation_accepted is false it succeeds and activates the account
regardless of the actual age of the invitation. -/
theorem c10_null_sent_at_never_expires (db : DB) (token : String) (now : Int)
    (u : User)
    (h : db.users.filter (fun v => v.invitation_token == some token) = [u])
    (hs : u.invitation_sent_at = none) :
    (acceptInvitation db token now).1 ≠ AcceptResult.expired ∧
    (u.invitation_accepted = false →
       (acceptInvitation db token now).1 = AcceptResult.success (applyAccept u now)) := by
  have he : inviteExpired u now = false := by
    unfold inviteExpired
    rw [hs]
  constructor
  · unfold acceptInvitation
    rw [h]
    by_cases ha : u.invitation_accepted = true <;> simp [he, ha]
  · intro ha
    unfold acceptInvitation
    rw [h]
    simp [he, ha]

/-- Witness for C10 at a concrete input: the timestamp-free invitee redeems
successfully even at a time far later than any expiry window. -/
theorem c10_witness :
    (acceptInvitation noTimestampDB "t" 99999999).1 ≠ AcceptResult.expired ∧
    (noTimestampInvitee.invitation_accepted = false →
       (acceptInvitation noTimestampDB "t" 99999999).1
         = AcceptResult.success (applyAccept noTimestampInvitee 99999999)) :=
  c10_null_sent_at_never_expires noTimestampDB "t" 99999999 noTimestampInvitee
    (by decide) rfl

/-- Claim C8: activating an inactive user whose invitation is unaccepted: a
superuser requester obtains a state with both is_active and
invitation_accepted true (the active-but-unaccepted state is unreachable
through this endpoint), while a non-superuser requester is rejected with the
must-accept-invitation error and no state change. -/
theorem c8_manual_activation_consistent (requester target : User)
    (hin : target.is_active = false) (hacc : target.invitation_accepted = false) :
    (requester.is_superuser = true →
       activateUser requester target
         = ActivateResult.activated
             { target with invitation_accepted := true, is_active := true } ∧
       ({ target with invitation_accepted := true, is_active := true } : User).is_active = true ∧
       ({ target with invitation_accepted := true, is_active := true } : User).invitation_accepted = true) ∧
    (requester.is_superuser = false →
       activateUser requester target = ActivateResult.mustAcceptInvitation) := by
  unfold activateUser
  constructor
  · intro hs
    simp [hin, hacc, hs]
  · intro hs
    simp [hin, hacc, hs]

/-- Witness for C8 at a concrete input: the superuser activates the pending
invitee; the group admin cannot. -/
theorem c8_witness :
    (activateUser superuser1 pendingInvitee
       = ActivateResult.activated
           { pendingInvitee with invitation_accepted := true, is_active := true }) ∧
    (activateUser groupAdmin1 pendingInvitee = ActivateResult.mustAcceptInvitation) :=
  ⟨((c8_manual_activation_consistent superuser1 pendingInvitee rfl rfl).1 rfl).1,
   (c8_manual_activation_consistent groupAdmin1 pendingInvitee rfl rfl).2 rfl⟩

/-- Every membership role has positive priority in the SSO rank table. -/
theorem rolePriority_pos (r : Role) : 1 ≤ rolePriority r := by
  cases r <;> simp [rolePriority]

/-- The running priority of the highest-priority scan never decreases and
ends at least as high as the priority of every scanned membership. -/
theorem rolePick_foldl_ge (l : List Membership) (acc : Option Role × Nat) :
    acc.2 ≤ (l.foldl rolePick acc).2 ∧
    ∀ m ∈ l, rolePriority m.role ≤ (l.foldl rolePick acc).2 := by
  induction l generalizing acc with
  | nil => simp
  | cons x xs ih =>
    have hstep : acc.2 ≤ (rolePick acc x).2 := by
      unfold rolePick
      split
      · next hgt => exact Nat.le_of_lt hgt
      · exact Nat.le_refl _
    have hx : rolePriority x.role ≤ (rolePick acc x).2 := by
      unfold rolePick
      split
      · exact Nat.le_refl _
      · next hgt => exact Nat.le_of_not_lt hgt
    have h1 := ih (rolePick acc x)
    refine ⟨Nat.le_trans hstep h1.1, ?_⟩
    intro m hm
    rcases List.mem_cons.mp hm with hm | hm
    · subst hm
      exact Nat.le_trans hx (by simpa using h1.1)
    · simpa using h1.2 m hm

/-- The highest-priority scan returns either its accumulator or the pair
built from some scanned membership. -/
theorem rolePick_foldl_result (l : List Membership) (acc : Option Role × Nat) :
    l.foldl rolePick acc = acc ∨
    ∃ m ∈ l, l.foldl rolePick acc = (some m.role, rolePriority m.role) := by
  induction l generalizing acc with
  | nil => exact Or.inl rfl
  | cons x xs ih =>
    rcases ih (rolePick acc x) with h | ⟨m, hm, h⟩
    · by_cases hc : rolePriority x.role > acc.2
      · right
        refine ⟨x, List.mem_cons_self x xs, ?_⟩
        rw [List.foldl_cons, h]
        unfold rolePick
        simp [hc]
      · left
        rw [List.foldl_cons, h]
        unfold rolePick
        simp [hc]
    · right
      exact ⟨m, List.mem_cons_of_mem x hm, by rw [List.foldl_cons]; exact h⟩

/-- Claim C9: the SSO claim builder primary role (identical in tokens.py and
the introspection view): a superuser resolves to super_user; a non-superuser
with no memberships resolves to null; a non-superuser with at least one
membership resolves to a role held by one of the memberships whose numeric
rank (group_admin 3, property_admin 2, tenant 1) is maximal among all the
memberships of the user. -/
theorem c9_primary_role_is_highest_rank (u : User) :
    (u.is_superuser = true → get_user_role u = some PrimaryRole.super_user) ∧
    (u.is_superuser = false → u.memberships = [] → get_user_role u = none) ∧
    (u.is_superuser = false → u.memberships ≠ [] →
       ∃ r, get_user_role u = some (PrimaryRole.membership_role r) ∧
         (∃ m ∈ u.memberships, m.role = r) ∧
         ∀ m ∈ u.memberships, rolePriority m.role ≤ rolePriority r) := by
  refine ⟨?_, ?_, ?_⟩
  · intro hs
    unfold get_user_role
    simp [hs]
  · intro hs hm
    unfold get_user_role
    simp [hs, hm]
  · intro hs hm
    obtain ⟨m0, hm0⟩ := List.exists_mem_of_ne_nil u.memberships hm
    rcases rolePick_foldl_result u.memberships (none, 0) with h | ⟨m, hmem, h⟩
    · exfalso
      have hge := (rolePick_foldl_ge u.memberships (none, 0)).2 m0 hm0
      rw [h] at hge
      exact absurd (Nat.le_trans (rolePriority_pos m0.role) hge) (by simp)
    · refine ⟨m.role, ?_, ⟨m, hmem, rfl⟩, ?_⟩
      · unfold get_user_role
        have hne : u.memberships.isEmpty = false := by
          simpa [List.isEmpty_iff] using hm
        simp [hs, hne, h]
      · intro m1 hm1
        have hge := (rolePick_foldl_ge u.memberships (none, 0)).2 m1 hm1
        rw [h] at hge
        exact hge

/-- Witness for C9 at a concrete input: selfScopedAdmin holds group_admin and
tenant memberships; the primary role is a maximal-rank role held by a
membership. -/
theorem c9_witness :
    ∃ r, get_user_role selfScopedAdmin = some (PrimaryRole.membership_role r) ∧
      (∃ m ∈ selfScopedAdmin.memberships, m.role = r) ∧
      ∀ m ∈ selfScopedAdmin.memberships, rolePriority m.role ≤ rolePriority r :=
  (c9_primary_role_is_highest_rank selfScopedAdmin).2.2 rfl (by decide)

/-- When property ids are unique (the database primary-key invariant), the
lookup-based group test of the permission code agrees with membership in
propertiesInGroup. -/
theorem findProperty_group_iff (db : DB) (pid g : Nat)
    (hnd : (db.properties.map Property.id).Nodup) :
    ((db.findProperty pid).elim false (fun p => p.property_group == g)) = true ↔
      pid ∈ propertiesInGroup db g := by
  constructor
  · intro h
    cases hf : db.findProperty pid with
    | none =>
      rw [hf] at h
      simp at h
    | some p =>
      rw [hf] at h
      simp only [Option.elim] at h
      have hmem : p ∈ db.properties := List.mem_of_find?_eq_some hf
      have hid : p.id = pid := by
        have := List.find?_some hf
        simpa using this
      have hg : p.property_group = g := by simpa using h
      unfold propertiesInGroup
      refine List.mem_map.mpr ⟨p, ?_, hid⟩
      refine List.mem_filter.mpr ⟨hmem, ?_⟩
      simp [hg]
  · intro h
    unfold propertiesInGroup at h
    obtain ⟨q, hq, hqid⟩ := List.mem_map.mp h
    have hqmem : q ∈ db.properties := (List.mem_filter.mp hq).1
    have hqg : q.property_group = g := by
      have := (List.mem_filter.mp hq).2
      simpa using this
    cases hf : db.findProperty pid with
    | none =>
      exfalso
      unfold DB.findProperty at hf
      rw [List.find?_eq_none] at hf
      exact absurd (by simpa using hqid) (by simpa using hf q hqmem)
    | some p =>
      have hpmem : p ∈ db.properties := List.mem_of_find?_eq_some hf
      have hpid : p.id = pid := by
        have := List.find?_some hf
        simpa using this
      have hpq : q = p :=
        List.inj_on_of_nodup_map hnd hqmem hpmem (by rw [hpid, hqid])
      simp [Option.elim, ← hpq, hqg]

/-- Claim C5: for an actor whose only membership is group_admin on group G
and a distinct non-superuser target whose only membership is property_admin
on property P, the object permission holds exactly when P currently lies in
G; the decision depends only on the database handed in, so evaluating after
moving P into or out of G changes the result. -/
theorem c5_group_admin_manages_property_admin_iff (db : DB) (actor target : User)
    (G P : Nat)
    (hnd : (db.properties.map Property.id).Nodup)
    (ha1 : actor.is_superuser = false)
    (ha2 : actor.memberships = [⟨Role.group_admin, none, some G⟩])
    (ht1 : target.is_superuser = false)
    (hne : actor.id ≠ target.id)
    (ht2 : target.memberships = [⟨Role.property_admin, some P, none⟩]) :
    (has_object_permission db actor target = true ↔ P ∈ propertiesInGroup db G) := by
  rw [← findProperty_group_iff db P G hnd]
  unfold has_object_permission
  simp [ha1, ha2, ht1, ht2, hne, isManagedRole]

/-- Witness for C5 at concrete inputs: with property 1 in group 1 the group
admin manages the property admin; after property 1 moves to group 2 the same
pair is denied. -/
theorem c5_witness :
    has_object_permission dbInG groupAdmin1 propertyAdmin1 = true ∧
    has_object_permission dbOutG groupAdmin1 propertyAdmin1 = false := by
  constructor
  · exact (c5_group_admin_manages_property_admin_iff dbInG groupAdmin1 propertyAdmin1
      1 1 (by decide) rfl rfl rfl (by decide) rfl).mpr (by decide)
  · have h := c5_group_admin_manages_property_admin_iff dbOutG groupAdmin1 propertyAdmin1
      1 1 (by decide) rfl rfl rfl (by decide) rfl
    cases hb : has_object_permission dbOutG groupAdmin1 propertyAdmin1 with
    | false => rfl
    | true => exact absurd (h.mp hb) (by decide)

/-- Claim C3, counterexample: when the group admin requests creation of a
super_user, the create serializer rejects the request, but the rejection is
raised as serializers.ValidationError (the class of every raise in validate,
serializers.py 115-117), hence it belongs to the validation-error family and
is not a distinct permission/authorization error as the claim states. -/
theorem c3_counterexample :
    validateUserCreate dbInG groupAdmin1 RoleChoice.super_user none none
      = Except.error (CreateErr.permissionForRole RoleChoice.super_user) ∧
    (CreateErr.permissionForRole RoleChoice.super_user).pythonClass
      = ErrClass.validationError ∧
    ErrClass.validationError ≠ ErrClass.permissionDenied := by
  refine ⟨by rfl, rfl, by decide⟩

/-- Claim C3 as amended: for every actor whose only membership is group_admin
on some group, creating a user with role super_user is rejected by the
can_create_role permission gate, which runs before the structural validation;
the denial message names the role, but it is raised as
serializers.ValidationError, the same error class as structural validation
failures, not a distinct permission error. -/
theorem c3_group_admin_cannot_create_super_user (db : DB) (actor : User) (G : Nat)
    (ha1 : actor.is_superuser = false)
    (ha2 : actor.memberships = [⟨Role.group_admin, none, some G⟩])
    (pid gid : Option Nat) :
    validateUserCreate db actor RoleChoice.super_user pid gid
      = Except.error (CreateErr.permissionForRole RoleChoice.super_user) ∧
    (CreateErr.permissionForRole RoleChoice.super_user).pythonClass
      = ErrClass.validationError := by
  have hc : can_create_role db actor RoleChoice.super_user pid gid = false := by
    unfold can_create_role
    simp [ha1, ha2]
  refine ⟨?_, rfl⟩
  unfold validateUserCreate
  rw [hc]
  rfl

/-- Witness for C3 as amended, at the concrete group admin. -/
theorem c3_witness :
    validateUserCreate dbInG groupAdmin1 RoleChoice.super_user (some 1) none
      = Except.error (CreateErr.permissionForRole RoleChoice.super_user) ∧
    (CreateErr.permissionForRole RoleChoice.super_user).pythonClass
      = ErrClass.validationError :=
  c3_group_admin_cannot_create_super_user dbInG groupAdmin1 1 rfl rfl (some 1) none

/-- The structural check rejects group_admin together with a truthy property
id, whatever the group id. -/
theorem roleScopeCheck_group_admin_err (pid : Nat) (hpid : pid ≠ 0)
    (gid : Option Nat) :
    ∃ e, roleScopeCheck RoleChoice.group_admin (some pid) gid = Except.error e := by
  unfold roleScopeCheck
  by_cases hg : truthyOptNat gid = true
  · refine ⟨CreateErr.groupAdminWithProperty, ?_⟩
    rw [hg]
    simp [truthyOptNat, hpid]
  · have hg2 : truthyOptNat gid = false := by simpa using hg
    refine ⟨CreateErr.groupAdminNeedsGroup, ?_⟩
    rw [hg2]
    simp

/-- The structural check rejects tenant or property_admin together with a
truthy group id, whatever the property id. -/
theorem roleScopeCheck_property_role_err (r : RoleChoice)
    (hr : r = RoleChoice.tenant ∨ r = RoleChoice.property_admin)
    (pid : Option Nat) (gid : Nat) (hgid : gid ≠ 0) :
    ∃ e, roleScopeCheck r pid (some gid) = Except.error e := by
  rcases hr with h | h <;> subst h <;> unfold roleScopeCheck <;>
    by_cases hp : truthyOptNat pid = true
  · exact ⟨CreateErr.roleWithGroup RoleChoice.tenant,
      by rw [hp]; simp [truthyOptNat, hgid]⟩
  · have hp2 : truthyOptNat pid = false := by simpa using hp
    exact ⟨CreateErr.roleNeedsProperty RoleChoice.tenant, by rw [hp2]; simp⟩
  · exact ⟨CreateErr.roleWithGroup RoleChoice.property_admin,
      by rw [hp]; simp [truthyOptNat, hgid]⟩
  · have hp2 : truthyOptNat pid = false := by simpa using hp
    exact ⟨CreateErr.roleNeedsProperty RoleChoice.property_admin, by rw [hp2]; simp⟩

/-- The structural check rejects super_user with any truthy scope. -/
theorem roleScopeCheck_super_user_err (pid gid : Option Nat)
    (h : (truthyOptNat pid || truthyOptNat gid) = true) :
    ∃ e, roleScopeCheck RoleChoice.super_user pid gid = Except.error e := by
  exact ⟨CreateErr.superUserScoped, by unfold roleScopeCheck; rw [h]; simp⟩

/-- Whenever the structural check errs, the whole create validation errs with
an error whose Python class is serializers.ValidationError, for every actor:
either the permission gate fires first (also a ValidationError) or the
structural error propagates. -/
theorem validateUserCreate_err_of_scope (db : DB) (actor : User) (r : RoleChoice)
    (pid gid : Option Nat)
    (h : ∃ e0, roleScopeCheck r pid gid = Except.error e0) :
    ∃ e, validateUserCreate db actor r pid gid = Except.error e ∧
      e.pythonClass = ErrClass.validationError := by
  obtain ⟨e0, he0⟩ := h
  unfold validateUserCreate
  by_cases hc : can_create_role db actor r pid gid = true
  · refine ⟨e0, ?_, rfl⟩
    rw [hc, he0]
    simp
  · have hc2 : can_create_role db actor r pid gid = false := by simpa using hc
    refine ⟨CreateErr.permissionForRole r, ?_, rfl⟩
    rw [hc2]
    simp

/-- The same propagation for the update validation when a role is supplied. -/
theorem validateUserUpdate_err_of_scope (db : DB) (actor : User) (r : RoleChoice)
    (pid gid : Option Nat)
    (h : ∃ e0, roleScopeCheck r pid gid = Except.error e0) :
    ∃ e, validateUserUpdate db actor (some r) pid gid = Except.error e ∧
      e.pythonClass = ErrClass.validationError := by
  obtain ⟨e0, he0⟩ := h
  simp only [validateUserUpdate]
  by_cases hc : can_create_role db actor r pid gid = true
  · refine ⟨e0, ?_, rfl⟩
    rw [hc, he0]
    simp
  · have hc2 : can_create_role db actor r pid gid = false := by simpa using hc
    refine ⟨CreateErr.permissionForRole r, ?_, rfl⟩
    rw [hc2]
    simp

/-- Claim C6: role-assignment structural validation is actor-independent: for
every database and every actor, superusers included, both the create and the
update validation reject group_admin together with a (truthy) property id,
reject tenant and property_admin together with a (truthy) group id, and
reject super_user with any truthy property or group scope, always with an
error of the validation family. -/
theorem c6_structural_validation_actor_independent (db : DB) (actor : User) :
    (∀ pid gid, pid ≠ 0 →
       (∃ e, validateUserCreate db actor RoleChoice.group_admin (some pid) gid
           = Except.error e ∧ e.pythonClass = ErrClass.validationError) ∧
       (∃ e, validateUserUpdate db actor (some RoleChoice.group_admin) (some pid) gid
           = Except.error e ∧ e.pythonClass = ErrClass.validationError)) ∧
    (∀ r pid gid, (r = RoleChoice.tenant ∨ r = RoleChoice.property_admin) → gid ≠ 0 →
       (∃ e, validateUserCreate db actor r pid (some gid)
           = Except.error e ∧ e.pythonClass = ErrClass.validationError) ∧
       (∃ e, validateUserUpdate db actor (some r) pid (some gid)
           = Except.error e ∧ e.pythonClass = ErrClass.validationError)) ∧
    (∀ pid gid, (truthyOptNat pid || truthyOptNat gid) = true →
       (∃ e, validateUserCreate db actor RoleChoice.super_user pid gid
           = Except.error e ∧ e.pythonClass = ErrClass.validationError) ∧
       (∃ e, validateUserUpdate db actor (some RoleChoice.super_user) pid gid
           = Except.error e ∧ e.pythonClass = ErrClass.validationError)) := by
  refine ⟨?_, ?_, ?_⟩
  · intro pid gid hpid
    exact ⟨validateUserCreate_err_of_scope db actor _ _ _
        (roleScopeCheck_group_admin_err pid hpid gid),
      validateUserUpdate_err_of_scope db actor _ _ _
        (roleScopeCheck_group_admin_err pid hpid gid)⟩
  · intro r pid gid hr hgid
    exact ⟨validateUserCreate_err_of_scope db actor _ _ _
        (roleScopeCheck_property_role_err r hr pid gid hgid),
      validateUserUpdate_err_of_scope db actor _ _ _
        (roleScopeCheck_property_role_err r hr pid gid hgid)⟩
  · intro pid gid h
    exact ⟨validateUserCreate_err_of_scope db actor _ _ _
        (roleScopeCheck_super_user_err pid gid h),
      validateUserUpdate_err_of_scope db actor _ _ _
        (roleScopeCheck_super_user_err pid gid h)⟩

/-- Witness for C6 at a concrete input: even the superuser actor is rejected
when pairing group_admin with a property id, tenant with a group id, and
super_user with a property id. -/
theorem c6_witness :
    (∃ e, validateUserCreate dbInG superuser1 RoleChoice.group_admin (some 1) none
        = Except.error e ∧ e.pythonClass = ErrClass.validationError) ∧
    (∃ e, validateUserUpdate dbInG superuser1 (some RoleChoice.tenant) (some 1) (some 1)
        = Except.error e ∧ e.pythonClass = ErrClass.validationError) ∧
    (∃ e, validateUserCreate dbInG superuser1 RoleChoice.super_user (some 1) none
        = Except.error e ∧ e.pythonClass = ErrClass.validationError) :=
  ⟨((c6_structural_validation_actor_independent dbInG superuser1).1 1 none
      (by decide)).1,
   (((c6_structural_validation_actor_independent dbInG superuser1).2.1
      RoleChoice.tenant (some 1) 1 (Or.inl rfl) (by decide))).2,
   ((c6_structural_validation_actor_independent dbInG superuser1).2.2 (some 1) none
      (by decide)).1⟩

end CreStudio
